import Mathlib

/-!
Verification of the Fibo-3d-2d client core: the sprite-sheet frame
extraction and playback engine (`src/components/sprite/SpriteAnimator.tsx`)
and the 3D job polling loop and error classification
(`src/DEPLOYMENT.md` api module, `src/pages/Generator.tsx`).

The TypeScript is shallowly embedded: React state updates become pure
functions on explicit state records, the polling loop becomes a
fuel-indexed recursion over an oracle of poll responses, and JS string
operations are modelled on `String` via its character list.
-/

namespace Fibo

/-- JS truthiness fallback `a || b` on an optional number: `undefined`
and `0` are falsy, so both fall through to the default. -/
def jsOrNat : Option Nat → Nat → Nat
  | some w, d => if w = 0 then d else w
  | none, d => d

/-- JS truthiness fallback `a || b` on an optional string: `undefined`
and the empty string are falsy. -/
def jsOrStr : Option String → String → String
  | some s, d => if s = "" then d else s
  | none, d => d

/-- JS `s.startsWith(p)`, modelled on the character lists. -/
def jsStartsWith (s p : String) : Bool :=
  p.data.isPrefixOf s.data

/-- A cropped frame rectangle produced by the extraction loop in
`SpriteAnimator`.  The source y coordinate is always 0 in the code
(`ctx.drawImage(img, i * calculatedFrameWidth, 0, ...)`), so only
x, width and height are recorded. -/
structure FrameRect where
  x : Nat
  w : Nat
  h : Nat
deriving DecidableEq

/-- Frame extraction from `SpriteAnimator`'s sheet-loading effect
(SpriteAnimator.tsx lines 310–347), for a decoded image of size
`imgW × imgH`:

  const calculatedFrameWidth  = frameWidth  || Math.floor(img.width / frameCount);
  const calculatedFrameHeight = frameHeight || img.height;
  for (let i = 0; i < frameCount; i++) { crop at x = i * calculatedFrameWidth, y = 0 }

`Nat` division is JS `Math.floor` on the nonnegative inputs involved. -/
def extractFrames (imgW imgH : Nat) (frameCount : Nat)
    (frameWidth? frameHeight? : Option Nat) : List FrameRect :=
  let calculatedFrameWidth := jsOrNat frameWidth? (imgW / frameCount)
  let calculatedFrameHeight := jsOrNat frameHeight? imgH
  (List.range frameCount).map fun i =>
    { x := i * calculatedFrameWidth, w := calculatedFrameWidth, h := calculatedFrameHeight }

/-- Guard of the sheet-loading effect (SpriteAnimator.tsx line 311):
`if (!sheetUrl) return;` — the image fetch (`img.src = sheetUrl`) is
issued exactly when the URL is a truthy (nonempty) string.  The effect
performs no check on `frameCount` before fetching, which is why the
count is an unused argument here. -/
def loadSheetIssuesFetch (sheetUrl : String) (_frameCount : Int) : Bool :=
  !(sheetUrl = "")

/-- Number of iterations of the extraction loop
`for (let i = 0; i < frameCount; i++)` for an integer frame count:
zero when `frameCount ≤ 0`. -/
def extractLoopIterations (frameCount : Int) : Nat :=
  frameCount.toNat

end Fibo

namespace Fibo

/-- C1: with no explicit frameWidth/frameHeight, extraction of a
`W × H` sheet into `F > 0` frames yields exactly `F` frames; frame `i`
starts at column `i * (W / F)`, ends at column `(i+1) * (W / F)` and
spans the full height `H`; the widths sum to `F * (W / F) ≤ W`. -/
theorem extractFrames_default_geometry (W H F : Nat) (hF : 0 < F) :
    (extractFrames W H F none none).length = F ∧
    (∀ i, i < F →
      (extractFrames W H F none none)[i]? =
        some { x := i * (W / F), w := W / F, h := H } ∧
      i * (W / F) + (W / F) = (i + 1) * (W / F)) ∧
    ((extractFrames W H F none none).map FrameRect.w).sum = F * (W / F) ∧
    F * (W / F) ≤ W := by
  refine ⟨by simp [extractFrames], ?_, ?_, ?_⟩
  · intro i hi
    refine ⟨?_, by ring⟩
    simp [extractFrames, jsOrNat, List.getElem?_map, List.getElem?_range, hi]
  · simp only [extractFrames, jsOrNat, List.map_map]
    have hconst : (FrameRect.w ∘ fun i : Nat =>
        ({ x := i * (W / F), w := W / F, h := H } : FrameRect)) = fun _ => W / F := rfl
    rw [hconst, List.map_const', List.sum_replicate, List.length_range, smul_eq_mul]
  · calc F * (W / F) = (W / F) * F := Nat.mul_comm _ _
    _ ≤ W := Nat.div_mul_le_self W F

/-- C1 witness: a 384 × 64 sheet with 6 frames. -/
theorem extractFrames_default_geometry_witness :
    (extractFrames 384 64 6 none none).length = 6 ∧
    (∀ i, i < 6 →
      (extractFrames 384 64 6 none none)[i]? =
        some { x := i * (384 / 6), w := 384 / 6, h := 64 } ∧
      i * (384 / 6) + (384 / 6) = (i + 1) * (384 / 6)) ∧
    ((extractFrames 384 64 6 none none).map FrameRect.w).sum = 6 * (384 / 6) ∧
    6 * (384 / 6) ≤ 384 :=
  extractFrames_default_geometry 384 64 6 (by decide)

/-- C5 counterexample: with a nonempty sheet URL and `frameCount = 0 ≤ 0`,
the sheet-loading effect still issues the image fetch — the effect guards
only on `!sheetUrl` and never inspects `frameCount`, so the claimed
reject-before-fetch does not happen. -/
theorem loadSheet_fetches_despite_nonpositive_frameCount :
    (0 : Int) ≤ 0 ∧ loadSheetIssuesFetch "sheet.png" 0 = true := by
  decide

/-- C5 amended: `frameCount ≤ 0` is not rejected.  The fetch decision
depends only on the sheet URL being nonempty (the effect's sole guard is
`if (!sheetUrl) return;`), for every frame count; extraction then runs
the crop loop zero times, so a nonpositive count yields no frames. -/
theorem loadSheet_guard_ignores_frameCount (url : String) (fc : Int)
    (hfc : fc ≤ 0) :
    (loadSheetIssuesFetch url fc = true ↔ url ≠ "") ∧
    extractLoopIterations fc = 0 ∧
    extractFrames 384 64 (extractLoopIterations fc) none none = [] := by
  refine ⟨?_, ?_, ?_⟩
  · simp [loadSheetIssuesFetch]
  · simp [extractLoopIterations, Int.toNat_of_nonpos hfc]
  · simp [extractFrames, extractLoopIterations, Int.toNat_of_nonpos hfc]

/-- C5 amended witness: URL "sheet.png", frame count 0. -/
theorem loadSheet_guard_ignores_frameCount_witness :
    (loadSheetIssuesFetch "sheet.png" 0 = true ↔ "sheet.png" ≠ "") ∧
    extractLoopIterations 0 = 0 ∧
    extractFrames 384 64 (extractLoopIterations 0) none none = [] :=
  loadSheet_guard_ignores_frameCount "sheet.png" 0 (by decide)

end Fibo

namespace Fibo

/-- The two viewer modes of `SpriteAnimator`. -/
inductive ViewMode where
  | preview
  | sheet
deriving DecidableEq

/-- The playback-relevant React state of `SpriteAnimator`:
`currentFrame`, `isPlaying`, `viewMode`, the length of the extracted
`frames` array, the `speed` prop (ms per frame) and the
`lastFrameTimeRef` timestamp of the previous actual advance. -/
structure PlaybackState where
  currentFrame : Nat
  isPlaying : Bool
  viewMode : ViewMode
  framesLen : Nat
  speed : Nat
  lastFrameTime : Int
deriving DecidableEq

/-- Handler `nextFrame` (SpriteAnimator.tsx lines 376–379):
`setIsPlaying(false); setCurrentFrame(prev => (prev + 1) % frameCount)`. -/
def nextFrame (frameCount : Nat) (s : PlaybackState) : PlaybackState :=
  { s with isPlaying := false, currentFrame := (s.currentFrame + 1) % frameCount }

/-- Handler `prevFrame` (SpriteAnimator.tsx lines 381–384):
`setIsPlaying(false); setCurrentFrame(prev => (prev - 1 + frameCount) % frameCount)`.
JS evaluates `prev - 1 + frameCount` left to right on numbers; on the
reachable states (`prev ≥ 0`, `frameCount ≥ 1`) this equals the `Nat`
expression `prev + frameCount - 1`. -/
def prevFrame (frameCount : Nat) (s : PlaybackState) : PlaybackState :=
  { s with isPlaying := false,
           currentFrame := (s.currentFrame + frameCount - 1) % frameCount }

/-- Handler `handleFrameClick(index)` (SpriteAnimator.tsx lines 386–390):
`setIsPlaying(false); setViewMode('preview'); setCurrentFrame(index)`. -/
def handleFrameClick (index : Nat) (s : PlaybackState) : PlaybackState :=
  { s with isPlaying := false, viewMode := ViewMode.preview, currentFrame := index }

/-- The frame scrub input's onChange handler (SpriteAnimator.tsx lines
594–598): `setCurrentFrame(Number(e.target.value))` with the range input
bounded to `[0, frameCount - 1]`. -/
def scrubInput (value : Nat) (s : PlaybackState) : PlaybackState :=
  { s with currentFrame := value }

/-- The scrub control is rendered only while paused in preview mode
(SpriteAnimator.tsx line 591: `viewMode === 'preview' && !isPlaying`). -/
def scrubRendered (s : PlaybackState) : Bool :=
  s.viewMode = ViewMode.preview && !s.isPlaying

/-- The play/pause button handler (SpriteAnimator.tsx line 529):
`setIsPlaying(!isPlaying)`. -/
def togglePlay (s : PlaybackState) : PlaybackState :=
  { s with isPlaying := !s.isPlaying }

/-- One invocation of `animate(timestamp)` from the animation-loop effect
(SpriteAnimator.tsx lines 350–373).  The effect runs the loop only when
`isPlaying && viewMode === 'preview' && frames.length > 0`; the callback
advances when `timestamp - lastFrameTimeRef.current >= speed`, recording
`timestamp` as the new last-advance time, and otherwise changes nothing. -/
def animateTick (frameCount : Nat) (s : PlaybackState) (timestamp : Int) :
    PlaybackState :=
  if s.isPlaying = true ∧ s.viewMode = ViewMode.preview ∧ 0 < s.framesLen then
    if (s.speed : Int) ≤ timestamp - s.lastFrameTime then
      { s with currentFrame := (s.currentFrame + 1) % frameCount,
               lastFrameTime := timestamp }
    else s
  else s

/-- C6: every manual navigation — next frame, previous frame, clicking a
timeline frame, and the scrub input (which is only rendered while paused
in preview mode) — sets `currentFrame` to the target index modulo the
frame count and leaves the animation paused. -/
theorem seek_navigation_pauses (F : Nat) (s : PlaybackState) (hF : 0 < F) :
    ((nextFrame F s).currentFrame = (s.currentFrame + 1) % F ∧
      (nextFrame F s).isPlaying = false) ∧
    (((prevFrame F s).currentFrame : Int) =
        ((s.currentFrame : Int) - 1) % (F : Int) ∧
      (prevFrame F s).isPlaying = false) ∧
    (∀ i, i < F → (handleFrameClick i s).currentFrame = i % F ∧
      (handleFrameClick i s).isPlaying = false) ∧
    (∀ v, v < F → scrubRendered s = true →
      (scrubInput v s).currentFrame = v % F ∧
      (scrubInput v s).isPlaying = false) := by
  refine ⟨⟨rfl, rfl⟩, ⟨?_, rfl⟩, ?_, ?_⟩
  · have hsub : 1 ≤ s.currentFrame + F := by omega
    simp only [prevFrame]
    rw [Int.natCast_mod, Nat.cast_sub hsub]
    push_cast
    have hrw : (s.currentFrame : Int) + F - 1 = ((s.currentFrame : Int) - 1) + F := by
      ring
    rw [hrw, ← Int.emod_eq_add_self_emod]
  · intro i hi
    exact ⟨by simp [handleFrameClick, Nat.mod_eq_of_lt hi], rfl⟩
  · intro v hv hr
    refine ⟨by simp [scrubInput, Nat.mod_eq_of_lt hv], ?_⟩
    simp only [scrubRendered, Bool.and_eq_true, Bool.not_eq_true'] at hr
    simpa [scrubInput] using hr.2

/-- C6 witness: a paused preview state with frame 2 of 6; navigation by
next, previous, clicking frame 3 and scrubbing to 5. -/
theorem seek_navigation_pauses_witness :
    ((nextFrame 6 ⟨2, false, ViewMode.preview, 6, 100, 0⟩).currentFrame = (2 + 1) % 6 ∧
      (nextFrame 6 ⟨2, false, ViewMode.preview, 6, 100, 0⟩).isPlaying = false) ∧
    (((prevFrame 6 ⟨2, false, ViewMode.preview, 6, 100, 0⟩).currentFrame : Int) =
        ((2 : Int) - 1) % (6 : Int) ∧
      (prevFrame 6 ⟨2, false, ViewMode.preview, 6, 100, 0⟩).isPlaying = false) ∧
    ((handleFrameClick 3 ⟨2, false, ViewMode.preview, 6, 100, 0⟩).currentFrame = 3 % 6 ∧
      (handleFrameClick 3 ⟨2, false, ViewMode.preview, 6, 100, 0⟩).isPlaying = false) ∧
    ((scrubInput 5 ⟨2, false, ViewMode.preview, 6, 100, 0⟩).currentFrame = 5 % 6 ∧
      (scrubInput 5 ⟨2, false, ViewMode.preview, 6, 100, 0⟩).isPlaying = false) := by
  have h := seek_navigation_pauses 6 ⟨2, false, ViewMode.preview, 6, 100, 0⟩ (by decide)
  exact ⟨h.1, h.2.1, h.2.2.1 3 (by decide), h.2.2.2 5 (by decide) (by decide)⟩

/-- C7: the timed advance changes the state only when playing and the
elapsed time since the last actual advance is at least the configured
interval; when the loop is active (playing, preview mode, frames loaded)
and the interval has elapsed, it increments the frame modulo the frame
count and records the tick's own timestamp as the new last-advance time. -/
theorem animateTick_spec (F : Nat) (s : PlaybackState) (t : Int) :
    (¬(s.isPlaying = true ∧ (s.speed : Int) ≤ t - s.lastFrameTime) →
      animateTick F s t = s) ∧
    (animateTick F s t ≠ s →
      s.isPlaying = true ∧ (s.speed : Int) ≤ t - s.lastFrameTime) ∧
    (s.isPlaying = true → s.viewMode = ViewMode.preview → 0 < s.framesLen →
      (s.speed : Int) ≤ t - s.lastFrameTime →
      (animateTick F s t).currentFrame = (s.currentFrame + 1) % F ∧
      (animateTick F s t).lastFrameTime = t) := by
  have key : ∀ h : ¬(s.isPlaying = true ∧ (s.speed : Int) ≤ t - s.lastFrameTime),
      animateTick F s t = s := by
    intro h
    unfold animateTick
    split
    · split
      · rename_i h1 h2
        exact absurd ⟨h1.1, h2⟩ h
      · rfl
    · rfl
  refine ⟨key, ?_, ?_⟩
  · intro hne
    by_contra hcon
    exact hne (key hcon)
  · intro hp hv hf he
    simp [animateTick, hp, hv, hf, he]

/-- C7 witness: a playing preview state with speed 100 ms, last advance
at 0, ticked at timestamp 150. -/
theorem animateTick_spec_witness :
    (animateTick 6 ⟨2, true, ViewMode.preview, 6, 100, 0⟩ 150).currentFrame =
      (2 + 1) % 6 ∧
    (animateTick 6 ⟨2, true, ViewMode.preview, 6, 100, 0⟩ 150).lastFrameTime = 150 :=
  (animateTick_spec 6 ⟨2, true, ViewMode.preview, 6, 100, 0⟩ 150).2.2
    rfl rfl (by decide) (by decide)

/-- C8: the play/pause toggle flips `isPlaying`, never changes
`currentFrame`, and toggling twice with no tick in between restores
`isPlaying` while leaving `currentFrame` untouched. -/
theorem togglePlay_preserves_frame (s : PlaybackState) :
    (togglePlay s).isPlaying = !s.isPlaying ∧
    (togglePlay s).currentFrame = s.currentFrame ∧
    (togglePlay (togglePlay s)).currentFrame = s.currentFrame ∧
    (togglePlay (togglePlay s)).isPlaying = s.isPlaying := by
  simp [togglePlay]

end Fibo

namespace Fibo

/-- The JSON body of `GET /3d/status/{job_id}` as consumed by
`api.generate3D` (DEPLOYMENT.md api module): the status string plus the
optional `image_url`, `model_url` and `error` fields. -/
structure StatusResponse where
  status : String
  image_url : Option String
  model_url : Option String
  error : Option String
deriving DecidableEq

/-- Result of one `api.get3DJobStatus` call: `.ok` a parsed response, or
`.error` the message of the exception thrown on a non-2xx response or a
transport failure. -/
abbrev PollResult := Except String StatusResponse

/-- A complete run of the polling section of `api.generate3D`: the
resolved value or thrown error message, the number of status fetches
actually performed, and the list of `wait(ms)` delays performed (one
`await wait(5000)` precedes every fetch). -/
structure PollRun where
  outcome : Except String (String × String)
  pollsMade : Nat
  waits : List Nat

/-- The polling loop of `api.generate3D` (DEPLOYMENT.md api module):

  const maxAttempts = 120;
  for (let i = 0; i < maxAttempts; i++) {
    await wait(5000);
    const status = await api.get3DJobStatus(job_id);   // may throw; not caught
    switch (status.status) {
      case 'completed': ... return { imageUrl: status.image_url || '',
        modelUrl: model_url || '' rewritten with base when it starts with '/' };
      case 'failed': throw new Error(status.error || 'Pipeline failed');
      default: break;                                   // keep polling
    }
  }
  throw new Error('Pipeline timed out');

`polls i` is the backend's answer to the (i+1)-th status fetch; an
uncaught exception from the fetch aborts the loop immediately.  The
progress callbacks are side-effect-only and omitted. -/
def pollLoop (base : String) (polls : Nat → PollResult) : Nat → Nat → PollRun
  | _, 0 => ⟨Except.error "Pipeline timed out", 0, []⟩
  | i, r + 1 =>
    match polls i with
    | Except.error e => ⟨Except.error e, 1, [5000]⟩
    | Except.ok st =>
      if st.status = "completed" then
        let modelUrl := jsOrStr st.model_url ""
        let modelUrl := if jsStartsWith modelUrl "/" then base ++ modelUrl else modelUrl
        ⟨Except.ok (jsOrStr st.image_url "", modelUrl), 1, [5000]⟩
      else if st.status = "failed" then
        ⟨Except.error (jsOrStr st.error "Pipeline failed"), 1, [5000]⟩
      else
        let rest := pollLoop base polls (i + 1) r
        ⟨rest.outcome, rest.pollsMade + 1, 5000 :: rest.waits⟩

/-- The polling phase of `api.generate3D`: up to 120 attempts starting at
attempt 0. -/
def generate3D (base : String) (polls : Nat → PollResult) : PollRun :=
  pollLoop base polls 0 120

/-- A status response is non-terminal when it is neither `completed` nor
`failed`; on such a response the loop keeps polling. -/
def nonTerminal (st : StatusResponse) : Bool :=
  !(st.status = "completed") && !(st.status = "failed")

/-- If every attempt in the window answers with a non-terminal status,
the loop spends its whole fuel, polling once per fuel unit with a
5000 ms wait before each poll, and times out. -/
theorem pollLoop_all_nonTerminal (base : String) (polls : Nat → PollResult)
    (r : Nat) : ∀ i : Nat,
    (∀ j, i ≤ j → j < i + r → ∃ st, polls j = Except.ok st ∧ nonTerminal st = true) →
    pollLoop base polls i r =
      ⟨Except.error "Pipeline timed out", r, List.replicate r 5000⟩ := by
  induction r with
  | zero => intro i _; rfl
  | succ n ih =>
    intro i h
    obtain ⟨st, hok, hnt⟩ := h i (Nat.le_refl i) (by omega)
    simp only [nonTerminal, Bool.and_eq_true, Bool.not_eq_true',
      decide_eq_false_iff_not] at hnt
    have hrest := ih (i + 1) (fun j hj1 hj2 => h j (by omega) (by omega))
    simp [pollLoop, hok, hnt.1, hnt.2, hrest, List.replicate_succ]

/-- C2: when the backend answers every one of the first 120 status
fetches with a non-terminal status (e.g. `pending`), `generate3D` makes
exactly 120 poll attempts, each preceded by a fixed 5000 ms wait, and
then throws `Pipeline timed out` — it never polls more than 120 times. -/
theorem generate3D_timeout_after_120 (base : String) (polls : Nat → PollResult)
    (h : ∀ j, j < 120 → ∃ st, polls j = Except.ok st ∧ nonTerminal st = true) :
    generate3D base polls =
      ⟨Except.error "Pipeline timed out", 120, List.replicate 120 5000⟩ :=
  pollLoop_all_nonTerminal base polls 120 0
    (fun j _ hj2 => h j (by omega))

/-- C2 witness: a backend that always answers `pending`. -/
theorem generate3D_timeout_after_120_witness :
    generate3D "http://localhost:8000"
        (fun _ => Except.ok ⟨"pending", none, none, none⟩) =
      ⟨Except.error "Pipeline timed out", 120, List.replicate 120 5000⟩ :=
  generate3D_timeout_after_120 "http://localhost:8000"
    (fun _ => Except.ok ⟨"pending", none, none, none⟩)
    (fun j _ => ⟨⟨"pending", none, none, none⟩, rfl, by decide⟩)

/-- C3: when the very first poll answers `completed`, `generate3D`
resolves on that poll (one fetch, one 5-second wait) with the returned
image URL and with the model URL rewritten to an absolute URL by
prepending the backend base when it is backend-relative (starts with
`/`). -/
theorem generate3D_completed_first_poll (base img mdl : String)
    (polls : Nat → PollResult)
    (h : polls 0 = Except.ok ⟨"completed", some img, some mdl, none⟩) :
    generate3D base polls =
      ⟨Except.ok (img, if jsStartsWith mdl "/" then base ++ mdl else mdl),
        1, [5000]⟩ := by
  have himg : jsOrStr (some img) "" = img := by
    by_cases hi : img = "" <;> simp [jsOrStr, hi]
  have hmdl : jsOrStr (some mdl) "" = mdl := by
    by_cases hm : mdl = "" <;> simp [jsOrStr, hm]
  simp [generate3D, pollLoop, h, himg, hmdl]

/-- C3 witness: first poll completed with a backend-relative model URL. -/
theorem generate3D_completed_first_poll_witness :
    generate3D "http://localhost:8000"
        (fun _ => Except.ok
          ⟨"completed", some "http://cdn/img.png", some "/outputs/model.glb", none⟩) =
      ⟨Except.ok ("http://cdn/img.png",
          if jsStartsWith "/outputs/model.glb" "/"
          then "http://localhost:8000" ++ "/outputs/model.glb"
          else "/outputs/model.glb"),
        1, [5000]⟩ :=
  generate3D_completed_first_poll "http://localhost:8000"
    "http://cdn/img.png" "/outputs/model.glb"
    (fun _ => Except.ok
      ⟨"completed", some "http://cdn/img.png", some "/outputs/model.glb", none⟩)
    rfl

/-- C4 counterexample: a transient transport failure on the very first
status fetch IS surfaced — the loop has no try/catch, so the exception
aborts polling after a single attempt (neither the 120-attempt budget
was exhausted nor did any poll return a `failed` status), and the
user-visible outcome is exactly that transport error. -/
theorem generate3D_surfaces_single_poll_error :
    (generate3D "http://localhost:8000"
        (fun i => if i = 0
          then Except.error "Failed to get job status: 502"
          else Except.ok ⟨"pending", none, none, none⟩)).outcome =
      Except.error "Failed to get job status: 502" ∧
    (generate3D "http://localhost:8000"
        (fun i => if i = 0
          then Except.error "Failed to get job status: 502"
          else Except.ok ⟨"pending", none, none, none⟩)).pollsMade = 1 ∧
    (Except.error "Failed to get job status: 502" :
        Except String (String × String)) ≠
      Except.error "Pipeline timed out" := by
  refine ⟨rfl, rfl, ?_⟩
  intro hcontra
  injection hcontra with hmsg
  exact absurd hmsg (by decide)

/-- C4 amended: a throw from a status fetch inside the bounded polling
loop is not caught: after any run of non-terminal answers, the first
fetch that throws aborts the loop at once and its message becomes the
user-visible error, without exhausting the 120-attempt budget and
without any terminal `failed` status. -/
theorem generate3D_poll_error_propagates (base : String)
    (polls : Nat → PollResult) (k : Nat) (e : String) (hk : k < 120)
    (hpre : ∀ j, j < k → ∃ st, polls j = Except.ok st ∧ nonTerminal st = true)
    (herr : polls k = Except.error e) :
    (generate3D base polls).outcome = Except.error e ∧
    (generate3D base polls).pollsMade = k + 1 := by
  have main : ∀ r i, i + r ≥ k + 1 →
      (∀ j, i ≤ j → j < k → ∃ st, polls j = Except.ok st ∧ nonTerminal st = true) →
      i ≤ k →
      (pollLoop base polls i r).outcome = Except.error e ∧
      (pollLoop base polls i r).pollsMade = (k - i) + 1 := by
    intro r
    induction r with
    | zero => intro i hge _ hik; omega
    | succ n ih =>
      intro i hge hpre' hik
      by_cases hi : i = k
      · subst hi
        simp [pollLoop, herr]
      · obtain ⟨st, hok, hnt⟩ := hpre' i (Nat.le_refl i) (by omega)
        simp only [nonTerminal, Bool.and_eq_true, Bool.not_eq_true',
          decide_eq_false_iff_not] at hnt
        have hrest := ih (i + 1) (by omega)
          (fun j hj1 hj2 => hpre' j (by omega) hj2) (by omega)
        simp only [pollLoop, hok, hnt.1, hnt.2, if_false]
        refine ⟨hrest.1, ?_⟩
        simp only [hrest.2]
        omega
  have h := main 120 0 (by omega) (fun j _ hj => hpre j hj) (by omega)
  exact ⟨h.1, by simpa using h.2⟩

/-- C4 amended witness: three pending answers, then a transport failure
on the fourth fetch. -/
theorem generate3D_poll_error_propagates_witness :
    (generate3D "http://localhost:8000"
        (fun i => if i < 3
          then Except.ok ⟨"pending", none, none, none⟩
          else Except.error "NetworkError when attempting to fetch resource")).outcome =
      Except.error "NetworkError when attempting to fetch resource" ∧
    (generate3D "http://localhost:8000"
        (fun i => if i < 3
          then Except.ok ⟨"pending", none, none, none⟩
          else Except.error "NetworkError when attempting to fetch resource")).pollsMade =
      3 + 1 :=
  generate3D_poll_error_propagates "http://localhost:8000"
    (fun i => if i < 3
      then Except.ok ⟨"pending", none, none, none⟩
      else Except.error "NetworkError when attempting to fetch resource")
    3 "NetworkError when attempting to fetch resource" (by omega)
    (fun j hj => ⟨⟨"pending", none, none, none⟩, by simp [hj], by decide⟩)
    (by simp)

end Fibo

namespace Fibo

/-- JS `hay.includes(needle)` on character lists: the needle occurs as a
contiguous run somewhere in the haystack. -/
def strIncludes (hay needle : List Char) : Bool :=
  needle.isPrefixOf hay ||
    match hay with
    | [] => false
    | _ :: t => strIncludes t needle

/-- JS `msg.toLowerCase().includes(pat)` for an already-lowercase
pattern, as used by the catch block of `handleGenerate`; lowercasing is
per character. -/
def containsLower (msg pat : String) : Bool :=
  strIncludes (msg.data.map Char.toLower) pat.data

/-- The three user-facing failure categories of `Generator.tsx`
(`useState<'moderation' | 'network' | 'general'>`). -/
inductive ErrorType where
  | moderation
  | network
  | general
deriving DecidableEq

/-- The error classification of `handleGenerate`'s catch block
(Generator.tsx lines 162–180): `moderation` when the message contains
"moderation" or "content", else `network` when it contains "network",
"fetch" or "timeout", else `general`. -/
def classifyError (errorMsg : String) : ErrorType :=
  if containsLower errorMsg "moderation" || containsLower errorMsg "content" then
    ErrorType.moderation
  else if containsLower errorMsg "network" || containsLower errorMsg "fetch" ||
      containsLower errorMsg "timeout" then
    ErrorType.network
  else
    ErrorType.general

/-- The message of the error thrown by `api.generateSprite` (DEPLOYMENT.md
api module), `none` when the response is 2xx:

  if (!response.ok) {
    const error = await response.json().catch(() => ({ error: 'Unknown error' }));
    throw new Error(error.error || `API error: [status]`);
  }

`body` is `none` when the response body fails to parse as JSON, and
otherwise carries the parsed object's optional `error` field. -/
def generateSpriteThrown (ok : Bool) (status : Nat)
    (body : Option (Option String)) : Option String :=
  if ok then none
  else
    let errField : Option String :=
      match body with
      | none => some "Unknown error"
      | some f => f
    some (match errField with
      | some e => if e = "" then "API error: " ++ toString status else e
      | none => "API error: " ++ toString status)

/-- C9: a non-2xx generation response whose JSON body is
`{"error": "content moderation flagged"}` makes `generateSprite` throw
an error carrying exactly that backend-supplied text, and the UI
classifier files that message under the moderation category. -/
theorem generateSprite_moderation_classified (status : Nat) :
    generateSpriteThrown false status (some (some "content moderation flagged")) =
      some "content moderation flagged" ∧
    classifyError "content moderation flagged" = ErrorType.moderation := by
  constructor
  · rfl
  · decide

end Fibo

namespace Fibo

/-- Model of `api.getOutputUrl` (DEPLOYMENT.md api module):

  if (path.startsWith('http')) return path;
  return `[SPRITE_API_BASE][path.startsWith('/') ? '' : '/'][path]`;

with the sprite backend base URL passed explicitly. -/
def getOutputUrl (base path : String) : String :=
  if jsStartsWith path "http" then path
  else base ++ (if jsStartsWith path "/" then "" else "/") ++ path

/-- If a pattern heads a list, it also heads any right extension. -/
theorem isPrefixOf_append_left (p l r : List Char)
    (h : p.isPrefixOf l = true) : p.isPrefixOf (l ++ r) = true := by
  induction p generalizing l with
  | nil => simp [List.isPrefixOf]
  | cons a as ih =>
    cases l with
    | nil => simp [List.isPrefixOf] at h
    | cons b bs =>
      simp only [List.isPrefixOf, Bool.and_eq_true, beq_iff_eq] at h
      simp only [List.cons_append, List.isPrefixOf, Bool.and_eq_true, beq_iff_eq]
      exact ⟨h.1, ih bs h.2⟩

/-- A string that starts with `/` is that slash followed by its tail. -/
theorem data_of_startsWith_slash (p : String)
    (h : jsStartsWith p "/" = true) : p.data = '/' :: p.data.tail := by
  unfold jsStartsWith at h
  have hs : ("/".data) = ['/'] := rfl
  rw [hs] at h
  cases hd : p.data with
  | nil => rw [hd] at h; simp [List.isPrefixOf] at h
  | cons c cs =>
    rw [hd] at h
    simp only [List.isPrefixOf, Bool.and_eq_true, beq_iff_eq] at h
    simp [← h.1]

/-- Concatenation of strings concatenates their character lists. -/
theorem string_data_append (a b : String) : (a ++ b).data = a.data ++ b.data := by
  cases a; cases b; rfl

/-- C10: when the configured base URL itself starts with `http`,
`getOutputUrl` is idempotent; a path that already starts with `http` is
returned unchanged, and any other path is returned as the base followed
by exactly one `/` separator and the path (whose own leading slash, if
any, is that separator). -/
theorem getOutputUrl_idempotent (base : String)
    (hb : jsStartsWith base "http" = true) (p : String) :
    getOutputUrl base (getOutputUrl base p) = getOutputUrl base p ∧
    (jsStartsWith p "http" = true → getOutputUrl base p = p) ∧
    (jsStartsWith p "http" = false →
      (getOutputUrl base p).data =
        base.data ++ '/' ::
          (if jsStartsWith p "/" then p.data.tail else p.data)) := by
  have habs : ∀ q : String, jsStartsWith p "http" = false →
      getOutputUrl base p = (base ++ (if jsStartsWith p "/" then "" else "/")) ++ p := by
    intro _ hp
    simp [getOutputUrl, hp]
  have hret : ∀ q : String, jsStartsWith q "http" = true →
      getOutputUrl base q = q := by
    intro q hq
    simp [getOutputUrl, hq]
  refine ⟨?_, ?_, ?_⟩
  · by_cases hp : jsStartsWith p "http" = true
    · rw [hret p hp]
      exact hret p hp
    · have hp' : jsStartsWith p "http" = false := by
        simpa using hp
      have hq : jsStartsWith (getOutputUrl base p) "http" = true := by
        rw [habs p hp']
        unfold jsStartsWith
        rw [string_data_append, string_data_append]
        rw [List.append_assoc]
        exact isPrefixOf_append_left _ _ _ hb
      exact hret _ hq
  · intro hp
    exact hret p hp
  · intro hp
    rw [habs p hp, string_data_append, string_data_append]
    by_cases hsl : jsStartsWith p "/" = true
    · have hdata := data_of_startsWith_slash p hsl
      rw [if_pos hsl, if_pos hsl, hdata]
      simp
    · have hsl' : jsStartsWith p "/" = false := by simpa using hsl
      simp [hsl']

/-- C10 witness: base `http://localhost:5000`, path `/outputs/sheet.png`. -/
theorem getOutputUrl_idempotent_witness :
    getOutputUrl "http://localhost:5000"
        (getOutputUrl "http://localhost:5000" "/outputs/sheet.png") =
      getOutputUrl "http://localhost:5000" "/outputs/sheet.png" ∧
    (getOutputUrl "http://localhost:5000" "/outputs/sheet.png").data =
      "http://localhost:5000".data ++ '/' ::
        (if jsStartsWith "/outputs/sheet.png" "/"
          then "/outputs/sheet.png".data.tail
          else "/outputs/sheet.png".data) :=
  ⟨(getOutputUrl_idempotent "http://localhost:5000" (by decide) "/outputs/sheet.png").1,
    (getOutputUrl_idempotent "http://localhost:5000" (by decide) "/outputs/sheet.png").2.2
      (by decide)⟩

end Fibo

